import Mathlib

/-!
Shallow embedding of the core of the Paris coffee sun-score service:

* the SWR cache `SmartCache` (`src/app/lib/cache.ts`),
* the VoxCity tile / pixel shadow resolver (`src/app/lib/voxcity.ts`),
* the hybrid scorer and score orchestrator (`src/app/api/sunscore/route.ts`).

JavaScript numbers are modelled as exact rationals (`ℚ`), millisecond
timestamps as integers (`ℤ`), and the external world — the filesystem /
fetch reads, `Math.cos` / `Math.PI`, and the SunCalc astronomy provider —
as explicit function parameters, so that every modelled function is a pure,
executable Lean definition.
-/

namespace App

/-! ### `src/app/lib/cache.ts` — the SWR cache -/

/-- One cached value as written by `SmartCache.set`: payload, write time
(ms since epoch), time-to-live and optional stale-while-revalidate window. -/
structure CacheEntry (T : Type) where
  data : T
  timestamp : ℤ
  ttl : ℤ
  swr : Option ℤ
deriving DecidableEq

/-- The result shape of `SmartCache.get`. -/
structure GetResult (T : Type) where
  data : Option T
  isStale : Bool
  shouldRefresh : Bool
deriving DecidableEq

/-- JavaScript truthiness of the optional `swr` field as used in
`memEntry.swr && …`: `undefined` and `0` are falsy, any other number is
truthy. -/
def swrTruthy : Option ℤ → Bool
  | none => false
  | some s => s != 0

/-- The per-entry logic shared by the memory tier and the file tier of
`SmartCache.get` (`cache.ts` lines 52-96).  `refTime` is `entry.timestamp`
for the memory tier and the file's `mtimeMs` for the file tier.  The result
is `none` when the tier falls through (entry expired past its SWR window:
the memory tier deletes it, the file tier ignores it). -/
def entryGet {T : Type} (now refTime : ℤ) (e : CacheEntry T) : Option (GetResult T) :=
  let age := now - refTime
  let isStale := swrTruthy e.swr && decide (e.ttl - e.swr.getD 0 < age)
  if age ≤ e.ttl then some ⟨some e.data, isStale, isStale⟩
  else if swrTruthy e.swr && decide (age < e.ttl + e.swr.getD 0) then
    some ⟨some e.data, true, true⟩
  else none

/-- The two cache tiers as seen by one key: the in-process map entry, and the
cache file on disk (its `mtimeMs` paired with the parsed JSON entry; `none`
models a missing or unreadable file, which `get` swallows as a miss). -/
structure CacheState (T : Type) where
  memEntry : Option (CacheEntry T)
  fileEntry : Option (ℤ × CacheEntry T)

namespace SmartCache

/-- `SmartCache.get` (`cache.ts` lines 48-99) evaluated at time `now`:
memory tier first, then the file tier, else a miss. -/
def get {T : Type} (now : ℤ) (st : CacheState T) : GetResult T :=
  match st.memEntry.bind (fun e => entryGet now e.timestamp e) with
  | some r => r
  | none =>
    match st.fileEntry.bind (fun p => entryGet now p.1 p.2) with
    | some r => r
    | none => ⟨none, false, false⟩

/-- `SmartCache.set` (`cache.ts` lines 101-120) at time `now`: writes the
memory entry synchronously and the cache file best effort; the file's mtime
is the write time. -/
def set {T : Type} (now ttl : ℤ) (swr : Option ℤ) (data : T) : CacheState T :=
  let e : CacheEntry T := ⟨data, now, ttl, swr⟩
  ⟨some e, some (now, e)⟩

end SmartCache

/-! ### `src/app/lib/voxcity.ts` — tile index and shadow resolver -/

/-- The three mask time-of-day slots. -/
inductive TimeSlot
  | morning
  | noon
  | afternoon
deriving DecidableEq

/-- Geographic bounds of a tile. -/
structure Bounds where
  north : ℚ
  south : ℚ
  east : ℚ
  west : ℚ
deriving DecidableEq

/-- A tile centre point. -/
structure Center where
  lat : ℚ
  lon : ℚ
deriving DecidableEq

/-- `VoxTileInfo`: one tile descriptor of the loaded metadata. -/
structure VoxTileInfo where
  tileId : String
  bounds : Bounds
  resolution : ℚ
  pixelWidth : ℤ
  pixelHeight : ℤ
  center : Center
deriving DecidableEq

/-- `VoxShadowMask`: one mask reference of the loaded metadata. -/
structure VoxShadowMask where
  tileId : String
  month : ℤ
  slot : TimeSlot
  url : String
  generated : String
deriving DecidableEq

/-- `VoxMetadata`: the parsed `metadata.json`. -/
structure VoxMetadata where
  version : String
  generated : String
  coverage : Bounds
  tiles : List VoxTileInfo
  masks : List VoxShadowMask
deriving DecidableEq

/-- The `'voxcity' | 'heuristic'` tag used both as the resolver's `precision`
and as the hybrid scorer's `method`. -/
inductive Precision
  | voxcity
  | heuristic
deriving DecidableEq

/-- `VoxShadowResult`: outcome of a shadow lookup. -/
structure VoxShadowResult where
  precision : Precision
  shadowValue : ℚ
  confidence : ℚ
  tileId : Option String
  coordinates : Option (ℤ × ℤ)
deriving DecidableEq

/-- The constant failure result
`{precision: 'heuristic', shadowValue: 0, confidence: 0}` that every failure
path of `getVoxShadowValue` returns. -/
def heuristicSentinel : VoxShadowResult :=
  ⟨Precision.heuristic, 0, 0, none, none⟩

/-- JavaScript `Math.round`: round to nearest, halves toward `+∞`. -/
def jsRound (q : ℚ) : ℤ := ⌊q + 1/2⌋

/-- `coordsToTileId` (`voxcity.ts` lines 62-74): grid indices are rounded
offsets from the Paris centre `(48.8566, 2.3522)` in units of `0.0008`
degrees, encoded as the string `"<x>_<y>"`. -/
def coordsToTileId (lat lon : ℚ) : String :=
  let tileX := jsRound ((lon - 2.3522) / 0.0008)
  let tileY := jsRound ((lat - 48.8566) / 0.0008)
  toString tileX ++ "_" ++ toString tileY

/-- Decimal value of one digit character, as consumed by `parseInt`. -/
def digitVal (c : Char) : Option ℕ :=
  if c = '0' then some 0 else if c = '1' then some 1 else if c = '2' then some 2
  else if c = '3' then some 3 else if c = '4' then some 4 else if c = '5' then some 5
  else if c = '6' then some 6 else if c = '7' then some 7 else if c = '8' then some 8
  else if c = '9' then some 9 else none

/-- Greedy run of decimal digits, left to right; the accumulator is `none`
while no digit has been consumed yet (JavaScript `parseInt` yields `NaN`
when it consumes no digit, and stops at the first non-digit). -/
def parseDigits : List Char → Option ℕ → Option ℕ
  | [], acc => acc
  | c :: rest, acc =>
    match digitVal c with
    | some d => parseDigits rest (some (acc.getD 0 * 10 + d))
    | none => acc

/-- JavaScript `parseInt` on the character list of a tile-id half: an
optional leading minus sign followed by decimal digits; `none` models `NaN`. -/
def parseIntChars (l : List Char) : Option ℤ :=
  match l with
  | '-' :: rest => (parseDigits rest none).map (fun n => -(n : ℤ))
  | _ => (parseDigits l none).map (fun n => (n : ℤ))

/-- `tileIdToBounds` (`voxcity.ts` lines 79-93): split the id at the first
underscore (`tileId.split('_')` destructured to its first two parts), parse
both grid indices, and rebuild the tile bounds anchored at the Paris centre;
`none` models the `NaN` poisoning of an unparsable id. -/
def tileIdToBounds (tileId : String) : Option Bounds :=
  let cs := tileId.toList
  let xs := cs.takeWhile (fun c => c ≠ '_')
  let ys := (cs.dropWhile (fun c => c ≠ '_')).drop 1
  match parseIntChars xs, parseIntChars ys with
  | some tileX, some tileY =>
    let west : ℚ := 2.3522 + (tileX : ℚ) * 0.0008
    let east : ℚ := west + 0.0008
    let south : ℚ := 48.8566 + (tileY : ℚ) * 0.0008
    let north : ℚ := south + 0.0008
    some ⟨north, south, east, west⟩
  | _, _ => none

/-- `coordsToPixel` (`voxcity.ts` lines 98-116): bounds check, then floor
projection into the pixel grid with `(0,0)` at the north-west corner.  The
source applies no clamping to the computed pixel indices. -/
def coordsToPixel (lat lon : ℚ) (tileInfo : VoxTileInfo) : Option (ℤ × ℤ) :=
  let b := tileInfo.bounds
  if lat < b.south ∨ lat > b.north ∨ lon < b.west ∨ lon > b.east then none
  else
    some (⌊(lon - b.west) / (b.east - b.west) * (tileInfo.pixelWidth : ℚ)⌋,
          ⌊(b.north - lat) / (b.north - b.south) * (tileInfo.pixelHeight : ℚ)⌋)

/-- `hourToTimeSlot` (`voxcity.ts` lines 121-130). -/
def hourToTimeSlot (hour : ℤ) : TimeSlot :=
  if 8 ≤ hour ∧ hour ≤ 10 then TimeSlot.morning
  else if 11 ≤ hour ∧ hour ≤ 13 then TimeSlot.noon
  else if 14 ≤ hour ∧ hour ≤ 16 then TimeSlot.afternoon
  else if hour < 11 then TimeSlot.morning
  else if hour < 14 then TimeSlot.noon
  else TimeSlot.afternoon

/-- The two fields of the JavaScript `Date` that the resolver reads:
`getMonth() + 1` (1-12) and `getHours()` (local hour 0-23). -/
structure Instant where
  month : ℤ
  hour : ℤ
deriving DecidableEq

/-- A decoded shadow-mask file: the fields `width` and `shadows` that
`getVoxShadowValue` reads from the mask JSON. -/
structure MaskData where
  width : ℤ
  shadows : List ℚ
deriving DecidableEq

/-- The resolver's external world: the parsed `metadata.json` (`none` when
the file is missing, unreadable or malformed — `loadVoxMetadata` returns
`null` in those cases), and the shadow-mask files keyed exactly as the
source builds the path: tile id, month and time slot (`none` models a
missing file or a failed read, which the source's `try/catch` turns into
the heuristic sentinel). -/
structure VoxEnv where
  metadata : Option VoxMetadata
  maskFile : String → ℤ → TimeSlot → Option MaskData

/-- `getVoxShadowValue` (`voxcity.ts` lines 184-312): tile lookup, pixel
projection, mask lookup, mask file read, sample fetch.  Every failure path
returns `heuristicSentinel`. -/
def getVoxShadowValue (vox : VoxEnv) (lat lon : ℚ) (date : Instant) : VoxShadowResult :=
  match vox.metadata with
  | none => heuristicSentinel
  | some metadata =>
    let tileId := coordsToTileId lat lon
    match metadata.tiles.find? (fun t => t.tileId == tileId) with
    | none => heuristicSentinel
    | some tileInfo =>
      match coordsToPixel lat lon tileInfo with
      | none => heuristicSentinel
      | some pixelCoords =>
        let month := date.month
        let timeSlot := hourToTimeSlot date.hour
        match metadata.masks.find? (fun m =>
            m.tileId == tileId && m.month == month && m.slot == timeSlot) with
        | none => heuristicSentinel
        | some _ =>
          match vox.maskFile tileId month timeSlot with
          | none => heuristicSentinel
          | some maskData =>
            let pixelIndex := pixelCoords.2 * maskData.width + pixelCoords.1
            if 0 ≤ pixelIndex ∧ pixelIndex < (maskData.shadows.length : ℤ) then
              ⟨Precision.voxcity, maskData.shadows.getD pixelIndex.toNat 0 / 255,
               0.95, some tileId, some pixelCoords⟩
            else heuristicSentinel

/-! ### `src/app/lib/sun.ts` helpers and the trigonometry oracle -/

/-- External trigonometry (`Math.cos` and `Math.PI`), abstracted as data so
that every scorer definition stays executable. -/
structure Trig where
  cos : ℚ → ℚ
  pi : ℚ

/-- `deg` from `sun.ts`: radians to degrees. -/
def deg (T : Trig) (r : ℚ) : ℚ := r * 180 / T.pi

/-- `clamp` from `sun.ts`: `max(a, min(b, x))`. -/
def clamp (x a b : ℚ) : ℚ := max a (min b x)

/-- `labelFromScore` from `sun.ts`. -/
def labelFromScore (s : ℚ) (afterSunset : Bool) : String :=
  if afterSunset then "🌙"
  else if 0.6 ≤ s then "☀️"
  else if 0.3 ≤ s then "⛅"
  else "☁️"

/-! ### `src/app/api/sunscore/route.ts` — heuristic and hybrid scorers -/

/-- The `isDenseArea` closure inside `computeSunScore`. -/
def isDenseArea (lat lon : ℚ) : Bool :=
  decide ((48.85 < lat ∧ lat < 48.87 ∧ 2.32 < lon ∧ lon < 2.37) ∨
          (48.88 < lat ∧ lon < 2.25) ∨
          (48.84 < lat ∧ lat < 48.85 ∧ 2.32 < lon ∧ lon < 2.33))

/-- `computeSunScore` (`route.ts` lines 205-272): the heuristic scorer. -/
def computeSunScore (T : Trig)
    (sunAzimuth sunElevation cafeOrientation cloudCover directRadiation cafeLat cafeLon : ℚ) : ℚ :=
  let sunElevationDeg := deg T sunElevation
  let cafeAzimuthRad := (cafeOrientation - 180) * T.pi / 180
  let azimuthDiff := |sunAzimuth - cafeAzimuthRad|
  let normalizedDiff := min azimuthDiff (2 * T.pi - azimuthDiff)
  let facingScore := max 0 (T.cos normalizedDiff)
  let elevScore := clamp ((sunElevationDeg - 8) / 20) 0 1
  let cloudPenalty := 1 - cloudCover / 100
  let radiationBonus : ℚ := if 100 < directRadiation then 1.1 else 1.0
  let timeBasedShadowRisk : ℚ := if sunElevationDeg < 20 then 0.8 else 1.0
  let locationPenalty : ℚ := if isDenseArea cafeLat cafeLon then 0.85 else 0.95
  let orientationPenalty : ℚ := if cafeOrientation = 0 then 0.8 else 1.0
  let shadowPenalty := timeBasedShadowRisk * locationPenalty * orientationPenalty
  let score := facingScore * elevScore * cloudPenalty * radiationBonus * shadowPenalty
  clamp (if sunElevationDeg < 5 then 0 else score) 0 1

/-- The result record of `computeHybridSunScore`. -/
structure HybridScore where
  score : ℚ
  method : Precision
  confidence : ℚ
deriving DecidableEq

/-- The orchestrator's external world: trigonometry, the VoxCity data, and
the astronomy provider (`sunAt`, returning azimuth and elevation in radians,
and `isAfterSunset`), all abstracted as pure functions. -/
structure Env where
  trig : Trig
  vox : VoxEnv
  sunGeometry : Instant → ℚ → ℚ → ℚ × ℚ
  afterSunset : Instant → ℚ → ℚ → Bool

/-- `computeHybridSunScore` (`route.ts` lines 277-350): the low-sun
short-circuit, then the VoxCity attempt, the binary-ish heuristic shadow
factor when VoxCity is unavailable, and the clamped multiplicative
combination of the common factors. -/
def computeHybridSunScore (env : Env)
    (sunAzimuth sunElevation cafeOrientation cloudCover directRadiation cafeLat cafeLon : ℚ)
    (hourTime : Instant) (usePrecision : Bool) : HybridScore :=
  let sunElevationDeg := deg env.trig sunElevation
  if sunElevationDeg < 5 then ⟨0, Precision.heuristic, 1⟩
  else
    let voxTry : Option VoxShadowResult :=
      if usePrecision then some (getVoxShadowValue env.vox cafeLat cafeLon hourTime) else none
    let smc : ℚ × Precision × ℚ :=
      match voxTry with
      | some voxResult =>
        if voxResult.precision = Precision.voxcity then
          (voxResult.shadowValue, Precision.voxcity, voxResult.confidence)
        else (1, Precision.heuristic, 0.7)
      | none => (1, Precision.heuristic, 0.7)
    let method := smc.2.1
    let confidence := smc.2.2
    let shadowFactor : ℚ :=
      if method = Precision.heuristic then
        if 0 < computeSunScore env.trig sunAzimuth sunElevation cafeOrientation
                 cloudCover directRadiation cafeLat cafeLon
        then 0.8 else 0.2
      else smc.1
    let cafeAzimuthRad := (cafeOrientation - 180) * env.trig.pi / 180
    let azimuthDiff := |sunAzimuth - cafeAzimuthRad|
    let normalizedDiff := min azimuthDiff (2 * env.trig.pi - azimuthDiff)
    let facingScore := max 0 (env.trig.cos normalizedDiff)
    let elevScore := clamp ((sunElevationDeg - 8) / 20) 0 1
    let cloudPenalty := 1 - cloudCover / 100
    let radiationBonus : ℚ := if 100 < directRadiation then 1.1 else 1.0
    ⟨clamp (shadowFactor * facingScore * elevScore * cloudPenalty * radiationBonus) 0 1,
     method, confidence⟩

/-! ### `src/app/api/sunscore/route.ts` — orchestrator -/

/-- A café as the orchestrator consumes it: id, name, coordinates, and
whether `tags?.outdoor_seating === "yes"`. -/
structure Cafe where
  id : String
  name : Option String
  lat : ℚ
  lon : ℚ
  outdoorSeating : Bool

/-- One hour of weather data: the hour's instant (abstracting the ISO
timestamp), cloud cover percent and direct radiation. -/
structure WeatherHour where
  time : Instant
  cloudCover : ℚ
  directRadiation : ℚ

/-- The east-west street table of `computeCafeOrientation`: pairs of
(street latitude, facing direction in degrees). -/
def eastWestStreets : List (ℚ × ℚ) :=
  [(48.8698, 180), (48.8533, 180), (48.8534, 180), (48.8593, 180)]

/-- The north-south street table: pairs of (street longitude, facing
direction in degrees). -/
def northSouthStreets : List (ℚ × ℚ) :=
  [(2.3438, 270), (2.3084, 90), (2.3483, 270)]

/-- One step of the closest-street scan inside `computeCafeOrientation`.
The accumulator carries the closest distance so far (`none` is the initial
`Infinity`) and the best orientation so far. -/
def streetStep (coord : ℚ) (st : Option ℚ × ℚ) (s : ℚ × ℚ) : Option ℚ × ℚ :=
  let dist := |coord - s.1|
  let closer := match st.1 with
    | none => true
    | some d => decide (dist < d)
  if closer && decide (dist < 0.01) then (some dist, s.2) else st

/-- `computeCafeOrientation` (`route.ts` lines 138-203). -/
def computeCafeOrientation (cafe : Cafe) : ℚ :=
  if cafe.outdoorSeating then
    (northSouthStreets.foldl (streetStep cafe.lon)
      (eastWestStreets.foldl (streetStep cafe.lat) (none, 180))).2
  else if cafe.lat < 48.855 then 0
  else if cafe.lon < 2.35 then 225
  else 180

/-- One (café, hour) step of the scoring loop inside
`computeFreshSunScores`: the early low-sun return, else the hybrid score;
the result is (score, label, method). -/
def scoreCafeHour (env : Env) (usePrecision : Bool) (cafeOrientation : ℚ)
    (cafe : Cafe) (w : WeatherHour) : ℚ × String × Precision :=
  let g := env.sunGeometry w.time cafe.lat cafe.lon
  let elevationDeg := deg env.trig g.2
  if elevationDeg < 5 then
    (0, labelFromScore 0 (env.afterSunset w.time cafe.lat cafe.lon), Precision.heuristic)
  else
    let r := computeHybridSunScore env g.1 g.2 cafeOrientation w.cloudCover
      w.directRadiation cafe.lat cafe.lon w.time usePrecision
    (r.score, labelFromScore r.score (env.afterSunset w.time cafe.lat cafe.lon), r.method)

/-- One café's scored row of the aggregate response. -/
structure CafeScores where
  id : String
  name : Option String
  lat : ℚ
  lon : ℚ
  labelByHour : List String
  scoreByHour : List ℚ

/-- The per-café part of the scoring loop. -/
def scoreCafe (env : Env) (usePrecision : Bool) (weatherData : List WeatherHour)
    (cafe : Cafe) : CafeScores :=
  let results := weatherData.map (scoreCafeHour env usePrecision (computeCafeOrientation cafe) cafe)
  ⟨cafe.id, cafe.name, cafe.lat, cafe.lon,
   results.map (fun r => r.2.1), results.map (fun r => r.1)⟩

/-- The café sampling of `computeFreshSunScores`: when more cafés are
available than the limit, keep every `ceil(length/limit)`-th one and cap at
the limit. -/
def limitCafes (cafes : List Cafe) (cafeLimit : ℕ) : List Cafe :=
  if cafeLimit < cafes.length then
    let k := (cafes.length + cafeLimit - 1) / cafeLimit
    ((cafes.enum.filter (fun p => p.1 % k = 0)).map Prod.snd).take cafeLimit
  else cafes

/-- The aggregate response body: the scored cafés plus the usage metadata
the route reports. -/
structure SunScoreBody where
  cafes : List CafeScores
  totalCafes : ℕ
  totalAvailable : ℕ
  voxCityCalculations : ℕ
  heuristicFallbacks : ℕ

/-- What `computeFreshSunScores` hands back to the HTTP layer: a JSON
response with a status, a structured error object with a status and a stable
error code, or nothing (background refresh). -/
inductive ApiResult (B : Type)
  | response (status : ℤ) (body : B)
  | errorResponse (status : ℤ) (errorCode : String)
  | backgroundDone

/-- `computeFreshSunScores` (`route.ts` lines 435-578) after the parallel
weather/café fetch has resolved: an empty weather sequence raises
`'No weather data available'`, which the surrounding `catch` converts to a
500 response with the stable code `"sunscore_failed"` (or to a silent return
on a background refresh); otherwise the café list is sampled and scored.
The model is total: no other path can escape the source's `try/catch`. -/
def computeFreshSunScores (env : Env) (weatherData : List WeatherHour)
    (cafes : List Cafe) (usePrecision : Bool) (isBackgroundRefresh : Bool)
    (cafeLimit : ℕ) : ApiResult SunScoreBody :=
  if weatherData.isEmpty then
    if isBackgroundRefresh then ApiResult.backgroundDone
    else ApiResult.errorResponse 500 "sunscore_failed"
  else
    let limited := limitCafes cafes cafeLimit
    let scored := limited.map (scoreCafe env usePrecision weatherData)
    let methods := (limited.map (fun c =>
      (weatherData.map (scoreCafeHour env usePrecision (computeCafeOrientation c) c)).map
        (fun r => r.2.2))).flatten
    let voxCount := methods.countP (fun m => m == Precision.voxcity)
    let heurCount := methods.countP (fun m => m == Precision.heuristic)
    let body : SunScoreBody := ⟨scored, scored.length, cafes.length, voxCount, heurCount⟩
    if isBackgroundRefresh then ApiResult.backgroundDone
    else ApiResult.response 200 body

/-! ### Concrete instances used by the witnesses and counterexamples -/

/-- A concrete trigonometry oracle for witnesses (its exact values are
irrelevant to the theorems it instantiates). -/
def trivialTrig : Trig := ⟨fun _ => 1, 3.1415926535⟩

/-- A VoxCity world with no metadata and no mask files. -/
def trivialVoxEnv : VoxEnv := ⟨none, fun _ _ _ => none⟩

/-- A concrete orchestrator environment for witnesses. -/
def trivialEnv : Env := ⟨trivialTrig, trivialVoxEnv, fun _ _ _ => (0, 0), fun _ _ _ => false⟩

/-- The tile of the spec's §8 scenario: id `"0_0"`, bounds
`{north: 48.86, south: 48.852, east: 2.356, west: 2.348}`, 4 m resolution,
22×22 pixels. -/
def tileScenario : VoxTileInfo :=
  ⟨"0_0", ⟨48.86, 48.852, 2.356, 2.348⟩, 4, 22, 22, ⟨48.856, 2.352⟩⟩

/-- The scenario's mask reference: tile `"0_0"`, June, noon. -/
def maskRefScenario : VoxShadowMask :=
  ⟨"0_0", 6, TimeSlot.noon, "/vox/tiles/0_0/2024-06-noon.json", "2024-01-01T00:00:00Z"⟩

/-- The scenario's metadata: exactly one tile and one mask. -/
def metaScenario : VoxMetadata :=
  ⟨"1.0", "2024-01-01T00:00:00Z", ⟨48.86, 48.852, 2.356, 2.348⟩,
   [tileScenario], [maskRefScenario]⟩

/-- The scenario's decoded mask: 22×22, every sample equal to 200. -/
def maskDataScenario : MaskData := ⟨22, List.replicate 484 200⟩

/-- The scenario's VoxCity world: the metadata above, and the single mask
file for `("0_0", 6, noon)`. -/
def voxEnvScenario : VoxEnv :=
  ⟨some metaScenario,
   fun id m s => if id = "0_0" ∧ m = 6 ∧ s = TimeSlot.noon then some maskDataScenario else none⟩

/-- The scenario tile relabelled with the grid id `"0_-1"` that
`coordsToTileId` actually computes for the query point. -/
def tileAligned : VoxTileInfo :=
  ⟨"0_-1", ⟨48.86, 48.852, 2.356, 2.348⟩, 4, 22, 22, ⟨48.856, 2.352⟩⟩

/-- The scenario mask reference relabelled to tile `"0_-1"`. -/
def maskRefAligned : VoxShadowMask :=
  ⟨"0_-1", 6, TimeSlot.noon, "/vox/tiles/0_-1/2024-06-noon.json", "2024-01-01T00:00:00Z"⟩

/-- The scenario metadata with the relabelled tile and mask. -/
def metaAligned : VoxMetadata :=
  ⟨"1.0", "2024-01-01T00:00:00Z", ⟨48.86, 48.852, 2.356, 2.348⟩,
   [tileAligned], [maskRefAligned]⟩

/-- The scenario's world with the tile and mask relabelled to the grid id
`"0_-1"` that `coordsToTileId` actually computes for the query point. -/
def voxEnvScenarioAligned : VoxEnv :=
  ⟨some metaAligned,
   fun id m s => if id = "0_-1" ∧ m = 6 ∧ s = TimeSlot.noon then some maskDataScenario else none⟩

/-! ### Helper lemmas -/

/-- An entry whose age is past `ttl + swr` (with a non-negative SWR window)
makes its tier of `get` fall through. -/
theorem entryGet_none {T : Type} (now refTime : ℤ) (e : CacheEntry T)
    (hs : 0 ≤ e.swr.getD 0) (h : e.ttl + e.swr.getD 0 < now - refTime) :
    entryGet now refTime e = none := by
  unfold entryGet
  rw [if_neg (by omega), if_neg]
  simp only [Bool.and_eq_true, decide_eq_true_eq, not_and]
  intro _
  omega

/-! ### Claim C1 — cache round trip inside the ttl window -/

/-- Claim C1 (counterexample): with `ttl = 100` and `swr = 50`, a `get`
80 ms after the `set` — i.e. still inside the ttl window — returns the
stored value but with `isStale = true`, refuting the claim that `get`
reports `isStale = false` throughout the whole ttl window. -/
theorem cache_fresh_window_counterexample :
    (SmartCache.get 80 (SmartCache.set 0 100 (some 50) (37 : ℤ))).data = some 37 ∧
    (SmartCache.get 80 (SmartCache.set 0 100 (some 50) (37 : ℤ))).isStale = true := by
  decide

/-- Claim C1 (amended): a `get` within `ttl` of the `set` always returns
the stored value and sets `shouldRefresh = isStale`, but `isStale` is
`false` only while no non-zero `swr` was given or the age is at most
`ttl − swr`: with an SWR window the entry is already reported stale during
the last `swr` milliseconds of its ttl window. -/
theorem cache_fresh_window_amended {T : Type} (v : T) (now d ttl : ℤ) (swr : Option ℤ)
    (hd : d ≤ ttl) :
    SmartCache.get (now + d) (SmartCache.set now ttl swr v) =
      ⟨some v, swrTruthy swr && decide (ttl - swr.getD 0 < d),
       swrTruthy swr && decide (ttl - swr.getD 0 < d)⟩ := by
  simp [SmartCache.get, SmartCache.set, entryGet, add_sub_cancel_left, hd]
  rw [if_pos (show now + d ≤ ttl + now from by omega)]

/-- Witness for the amended C1 theorem: `ttl = 100`, `swr = 50`, age 3. -/
theorem cache_fresh_window_amended_witness :
    SmartCache.get (10 + 3) (SmartCache.set 10 100 (some 50) (5 : ℤ)) =
      ⟨some 5, false, false⟩ :=
  (cache_fresh_window_amended (5 : ℤ) 10 3 100 (some 50) (by decide)).trans (by decide)

/-- The grid id `coordsToTileId` computes for the spec's §8 scenario query
point `(48.856, 2.352)`: the longitude offset is `-0.25` tiles (rounded to
`0`) and the latitude offset is `-0.75` tiles (rounded to `-1`). -/
theorem coordsToTileId_scenario : coordsToTileId 48.856 2.352 = "0_-1" := by
  have hx : jsRound ((2.352 - 2.3522) / 0.0008) = 0 := by
    unfold jsRound
    norm_num
  have hy : jsRound ((48.856 - 48.8566) / 0.0008) = -1 := by
    unfold jsRound
    norm_num
  simp only [coordsToTileId, hx, hy]
  rfl

/-! ### Claim C8 — SWR boundary behaviour -/

/-- Claim C8: with `ttl = 100 ms` and `swr = 50 ms`, a `get` 120 ms after
the `set` returns the stored value with `isStale = shouldRefresh = true`, a
`get` 200 ms after the `set` returns no value, and in general `get` returns
no value from a state whose entries (both tiers) have age strictly greater
than `ttl + swr`. -/
theorem cache_swr_boundary {T : Type} (v : T) (now : ℤ) (st : CacheState T)
    (hmem : ∀ e, st.memEntry = some e →
      0 ≤ e.swr.getD 0 ∧ e.ttl + e.swr.getD 0 < now - e.timestamp)
    (hfile : ∀ p, st.fileEntry = some p →
      0 ≤ p.2.swr.getD 0 ∧ p.2.ttl + p.2.swr.getD 0 < now - p.1) :
    SmartCache.get 120 (SmartCache.set 0 100 (some 50) v) = ⟨some v, true, true⟩ ∧
    (SmartCache.get 200 (SmartCache.set 0 100 (some 50) v)).data = none ∧
    (SmartCache.get now st).data = none := by
  refine ⟨?_, ?_, ?_⟩
  · norm_num [SmartCache.get, SmartCache.set, entryGet, swrTruthy]
  · norm_num [SmartCache.get, SmartCache.set, entryGet, swrTruthy]
  · obtain ⟨mem, file⟩ := st
    have hm : mem.bind (fun e => entryGet now e.timestamp e) = none := by
      cases mem with
      | none => rfl
      | some e =>
        obtain ⟨hs, hexp⟩ := hmem e rfl
        simpa using entryGet_none now e.timestamp e hs hexp
    have hf : file.bind (fun p => entryGet now p.1 p.2) = none := by
      cases file with
      | none => rfl
      | some p =>
        obtain ⟨hs, hexp⟩ := hfile p rfl
        simpa using entryGet_none now p.1 p.2 hs hexp
    simp [SmartCache.get, hm, hf]

/-- Witness for C8 with `v = 7` and an empty cache state at `now = 1000`. -/
theorem cache_swr_boundary_witness :
    SmartCache.get 120 (SmartCache.set 0 100 (some 50) (7 : ℤ)) = ⟨some 7, true, true⟩ ∧
    (SmartCache.get 200 (SmartCache.set 0 100 (some 50) (7 : ℤ))).data = none ∧
    (SmartCache.get 1000 (⟨none, none⟩ : CacheState ℤ)).data = none :=
  cache_swr_boundary (7 : ℤ) 1000 ⟨none, none⟩
    (fun _ h => Option.noConfusion h) (fun _ h => Option.noConfusion h)

/-! ### Claim C4 — hour to time-slot mapping -/

/-- Claim C4: for every integer hour 0-23, `hourToTimeSlot` returns morning
on 8-10, noon on 11-13, afternoon on 14-16, and snaps the remaining hours
by threshold — morning below 11 (so hours 0-7) and afternoon from 17 on. -/
theorem hourToTimeSlot_bands (h : ℤ) (h0 : 0 ≤ h) (h23 : h ≤ 23) :
    (8 ≤ h ∧ h ≤ 10 → hourToTimeSlot h = TimeSlot.morning) ∧
    (11 ≤ h ∧ h ≤ 13 → hourToTimeSlot h = TimeSlot.noon) ∧
    (14 ≤ h ∧ h ≤ 16 → hourToTimeSlot h = TimeSlot.afternoon) ∧
    (h ≤ 7 → hourToTimeSlot h = TimeSlot.morning) ∧
    (17 ≤ h → hourToTimeSlot h = TimeSlot.afternoon) := by
  interval_cases h <;> refine ⟨?_, ?_, ?_, ?_, ?_⟩ <;> decide

/-- Witness for C4 at hour 9. -/
theorem hourToTimeSlot_bands_witness :
    (8 ≤ (9 : ℤ) ∧ (9 : ℤ) ≤ 10 → hourToTimeSlot 9 = TimeSlot.morning) ∧
    (11 ≤ (9 : ℤ) ∧ (9 : ℤ) ≤ 13 → hourToTimeSlot 9 = TimeSlot.noon) ∧
    (14 ≤ (9 : ℤ) ∧ (9 : ℤ) ≤ 16 → hourToTimeSlot 9 = TimeSlot.afternoon) ∧
    ((9 : ℤ) ≤ 7 → hourToTimeSlot 9 = TimeSlot.morning) ∧
    (17 ≤ (9 : ℤ) → hourToTimeSlot 9 = TimeSlot.afternoon) :=
  hourToTimeSlot_bands 9 (by decide) (by decide)

/-! ### Claim C2 — pixel mapping at the tile corners -/

/-- Claim C2 (counterexample): on the 22×22 scenario tile the exact
south-east corner passes `coordsToPixel`'s bounds check but maps to pixel
`(22, 22)` — equal to `pixelWidth` / `pixelHeight`, hence out of range, not
`(21, 21)`: the source has no boundary clamping. -/
theorem coordsToPixel_se_corner_counterexample :
    coordsToPixel 48.852 2.356 tileScenario = some (22, 22) ∧
    ¬((22 : ℤ) < tileScenario.pixelWidth) := by
  constructor
  · unfold coordsToPixel tileScenario
    rw [if_neg (by norm_num)]
    norm_num
  · unfold tileScenario
    norm_num

/-- Claim C2 (amended): on a non-degenerate tile the exact north-west corner
maps to `(0, 0)`, and every point with `south < lat ≤ north` and
`west ≤ lon < east` maps to a pixel strictly inside the grid; but the exact
south-east corner maps to `(pixelWidth, pixelHeight)`, one past the valid
range in both axes, because the source applies no clamping. -/
theorem coordsToPixel_amended (info : VoxTileInfo)
    (hwe : info.bounds.west < info.bounds.east)
    (hsn : info.bounds.south < info.bounds.north)
    (hW : 0 < info.pixelWidth) (hH : 0 < info.pixelHeight) :
    coordsToPixel info.bounds.north info.bounds.west info = some (0, 0) ∧
    coordsToPixel info.bounds.south info.bounds.east info =
      some (info.pixelWidth, info.pixelHeight) ∧
    (∀ lat lon, info.bounds.south < lat → lat ≤ info.bounds.north →
      info.bounds.west ≤ lon → lon < info.bounds.east →
      ∃ x y, coordsToPixel lat lon info = some (x, y) ∧
        0 ≤ x ∧ x < info.pixelWidth ∧ 0 ≤ y ∧ y < info.pixelHeight) := by
  refine ⟨?_, ?_, ?_⟩
  · unfold coordsToPixel
    rw [if_neg (by push_neg; exact ⟨hsn.le, le_refl _, le_refl _, hwe.le⟩)]
    simp [sub_self]
  · unfold coordsToPixel
    rw [if_neg (by push_neg; exact ⟨le_refl _, hsn.le, hwe.le, le_refl _⟩)]
    rw [div_self (sub_ne_zero.mpr (ne_of_gt hwe)),
        div_self (sub_ne_zero.mpr (ne_of_gt hsn)), one_mul, one_mul,
        Int.floor_intCast, Int.floor_intCast]
  · intro lat lon h1 h2 h3 h4
    have hd1 : (0 : ℚ) < info.bounds.east - info.bounds.west := by linarith
    have hd2 : (0 : ℚ) < info.bounds.north - info.bounds.south := by linarith
    have hWq : (0 : ℚ) < (info.pixelWidth : ℚ) := by exact_mod_cast hW
    have hHq : (0 : ℚ) < (info.pixelHeight : ℚ) := by exact_mod_cast hH
    have ht0 : 0 ≤ (lon - info.bounds.west) / (info.bounds.east - info.bounds.west) :=
      div_nonneg (by linarith) hd1.le
    have ht1 : (lon - info.bounds.west) / (info.bounds.east - info.bounds.west) < 1 :=
      (div_lt_one hd1).mpr (by linarith)
    have hu0 : 0 ≤ (info.bounds.north - lat) / (info.bounds.north - info.bounds.south) :=
      div_nonneg (by linarith) hd2.le
    have hu1 : (info.bounds.north - lat) / (info.bounds.north - info.bounds.south) < 1 :=
      (div_lt_one hd2).mpr (by linarith)
    unfold coordsToPixel
    rw [if_neg (by push_neg; exact ⟨h1.le, h2, h3, h4.le⟩)]
    refine ⟨_, _, rfl, ?_, ?_, ?_, ?_⟩
    · exact Int.floor_nonneg.mpr (mul_nonneg ht0 hWq.le)
    · exact Int.floor_lt.mpr (by calc
        (lon - info.bounds.west) / (info.bounds.east - info.bounds.west) *
            (info.pixelWidth : ℚ) <
            1 * (info.pixelWidth : ℚ) := by
          exact mul_lt_mul_of_pos_right ht1 hWq
        _ = (info.pixelWidth : ℚ) := one_mul _)
    · exact Int.floor_nonneg.mpr (mul_nonneg hu0 hHq.le)
    · exact Int.floor_lt.mpr (by calc
        (info.bounds.north - lat) / (info.bounds.north - info.bounds.south) *
            (info.pixelHeight : ℚ) <
            1 * (info.pixelHeight : ℚ) := by
          exact mul_lt_mul_of_pos_right hu1 hHq
        _ = (info.pixelHeight : ℚ) := one_mul _)

/-- Witness for the amended C2 theorem on the scenario tile: the north-west
corner maps to `(0, 0)` and the interior point `(48.856, 2.352)` maps in
range. -/
theorem coordsToPixel_amended_witness :
    coordsToPixel tileScenario.bounds.north tileScenario.bounds.west tileScenario =
      some (0, 0) ∧
    (∃ x y, coordsToPixel 48.856 2.352 tileScenario = some (x, y) ∧
      0 ≤ x ∧ x < tileScenario.pixelWidth ∧ 0 ≤ y ∧ y < tileScenario.pixelHeight) := by
  have h := coordsToPixel_amended tileScenario (by unfold tileScenario; norm_num)
    (by unfold tileScenario; norm_num) (by unfold tileScenario; norm_num)
    (by unfold tileScenario; norm_num)
  exact ⟨h.1, h.2.2 48.856 2.352 (by unfold tileScenario; norm_num)
    (by unfold tileScenario; norm_num) (by unfold tileScenario; norm_num)
    (by unfold tileScenario; norm_num)⟩

/-! ### Claim C3 — the spec's precomputed-lookup scenario -/

/-- Claim C3 (counterexample): for the scenario query point
`(48.856, 2.352)` the computed grid id is not `"0_0"`, so the tile lookup
in the scenario metadata fails and the resolver does not return a
precomputed (voxcity) result. -/
theorem vox_scenario_counterexample :
    coordsToTileId 48.856 2.352 ≠ "0_0" ∧
    (getVoxShadowValue voxEnvScenario 48.856 2.352 ⟨6, 12⟩).precision ≠
      Precision.voxcity := by
  constructor
  · rw [coordsToTileId_scenario]
    decide
  · have h1 := coordsToTileId_scenario
    have hfind : metaScenario.tiles.find? (fun t => t.tileId == "0_-1") = none := rfl
    simp only [getVoxShadowValue, voxEnvScenario, h1, hfind]
    decide

set_option maxRecDepth 4000 in
/-- Claim C3 (amended): the tile id computed for the scenario point is
`"0_-1"`, half a grid cell south of the metadata's `"0_0"`, so the lookup
misses and the resolver degrades to the heuristic sentinel; with the same
tile and mask relabelled to the computed id `"0_-1"`, the lookup does
return the claimed precomputed result `200/255` with confidence `0.95` at
pixel `(11, 11)`. -/
theorem vox_scenario_amended :
    coordsToTileId 48.856 2.352 = "0_-1" ∧
    getVoxShadowValue voxEnvScenario 48.856 2.352 ⟨6, 12⟩ = heuristicSentinel ∧
    getVoxShadowValue voxEnvScenarioAligned 48.856 2.352 ⟨6, 12⟩ =
      ⟨Precision.voxcity, 200 / 255, 0.95, some "0_-1", some (11, 11)⟩ := by
  have h1 := coordsToTileId_scenario
  refine ⟨h1, ?_, ?_⟩
  · simp only [getVoxShadowValue, voxEnvScenario, h1]
    rfl
  · have hfindT : metaAligned.tiles.find? (fun t => t.tileId == "0_-1") =
        some tileAligned := rfl
    have hpix : coordsToPixel 48.856 2.352 tileAligned = some (11, 11) := by
      unfold coordsToPixel tileAligned
      rw [if_neg (by norm_num)]
      norm_num
    have hslot : hourToTimeSlot 12 = TimeSlot.noon := by decide
    have hfindM : metaAligned.masks.find?
        (fun m => m.tileId == "0_-1" && m.month == 6 && m.slot == TimeSlot.noon) =
        some maskRefAligned := rfl
    simp only [getVoxShadowValue, voxEnvScenarioAligned, h1, hfindT, hpix, hslot, hfindM]
    rfl

/-! ### Claim C10 — the rounding grid and the bounds grid are offset -/

/-- Claim C10: there are coordinates whose point lies strictly outside the
bounds that `tileIdToBounds` assigns to the very tile id `coordsToTileId`
computes for them: `(48.856, 2.352)` is assigned `"0_-1"` (by rounding, so
the cell is centred on the grid line), but `tileIdToBounds` starts tile 0
at the centre longitude `2.3522`, east of the point, so the point is west
of its own tile's bounds and `coordsToPixel` rejects it to the heuristic
path. -/
theorem tile_grid_offset_exists :
    ∃ (lat lon : ℚ) (info : VoxTileInfo),
      coordsToTileId lat lon = info.tileId ∧
      tileIdToBounds info.tileId = some info.bounds ∧
      lon < info.bounds.west ∧
      coordsToPixel lat lon info = none := by
  refine ⟨48.856, 2.352,
    ⟨"0_-1", ⟨48.8566, 48.8558, 2.353, 2.3522⟩, 4, 22, 22, ⟨48.8562, 2.3526⟩⟩,
    coordsToTileId_scenario, ?_, by norm_num, ?_⟩
  · have hx : parseIntChars ("0_-1".toList.takeWhile (fun c => c ≠ '_')) = some 0 := by
      decide
    have hy : parseIntChars (("0_-1".toList.dropWhile (fun c => c ≠ '_')).drop 1) =
        some (-1) := by decide
    simp only [tileIdToBounds, hx, hy]
    norm_num
  · unfold coordsToPixel
    exact if_pos (by norm_num)

/-! ### Claim C6 — the resolver never throws and degrades to the sentinel -/

/-- Failure case of the resolver: metadata unavailable. -/
theorem getVox_meta_none (vox : VoxEnv) (lat lon : ℚ) (date : Instant)
    (h : vox.metadata = none) :
    getVoxShadowValue vox lat lon date = heuristicSentinel := by
  simp only [getVoxShadowValue, h]

/-- Failure case of the resolver: no tile with the computed id. -/
theorem getVox_tile_none (vox : VoxEnv) (lat lon : ℚ) (date : Instant)
    (md : VoxMetadata) (hmd : vox.metadata = some md)
    (h : md.tiles.find? (fun t => t.tileId == coordsToTileId lat lon) = none) :
    getVoxShadowValue vox lat lon date = heuristicSentinel := by
  simp only [getVoxShadowValue, hmd, h]

/-- Failure case of the resolver: point outside the found tile's bounds. -/
theorem getVox_pixel_none (vox : VoxEnv) (lat lon : ℚ) (date : Instant)
    (md : VoxMetadata) (info : VoxTileInfo) (hmd : vox.metadata = some md)
    (hinfo : md.tiles.find? (fun t => t.tileId == coordsToTileId lat lon) = some info)
    (h : coordsToPixel lat lon info = none) :
    getVoxShadowValue vox lat lon date = heuristicSentinel := by
  simp only [getVoxShadowValue, hmd, hinfo, h]

/-- Failure case of the resolver: no mask matches (tile, month, slot). -/
theorem getVox_mask_none (vox : VoxEnv) (lat lon : ℚ) (date : Instant)
    (md : VoxMetadata) (info : VoxTileInfo) (p : ℤ × ℤ) (hmd : vox.metadata = some md)
    (hinfo : md.tiles.find? (fun t => t.tileId == coordsToTileId lat lon) = some info)
    (hp : coordsToPixel lat lon info = some p)
    (h : md.masks.find? (fun m => m.tileId == coordsToTileId lat lon &&
      m.month == date.month && m.slot == hourToTimeSlot date.hour) = none) :
    getVoxShadowValue vox lat lon date = heuristicSentinel := by
  simp only [getVoxShadowValue, hmd, hinfo, hp, h]

/-- Failure case of the resolver: the mask file is missing or unreadable. -/
theorem getVox_file_none (vox : VoxEnv) (lat lon : ℚ) (date : Instant)
    (md : VoxMetadata) (info : VoxTileInfo) (p : ℤ × ℤ) (hmd : vox.metadata = some md)
    (hinfo : md.tiles.find? (fun t => t.tileId == coordsToTileId lat lon) = some info)
    (hp : coordsToPixel lat lon info = some p)
    (h : vox.maskFile (coordsToTileId lat lon) date.month (hourToTimeSlot date.hour) = none) :
    getVoxShadowValue vox lat lon date = heuristicSentinel := by
  rcases hk : md.masks.find? (fun m => m.tileId == coordsToTileId lat lon &&
      m.month == date.month && m.slot == hourToTimeSlot date.hour) with _ | mk
  · exact getVox_mask_none vox lat lon date md info p hmd hinfo hp hk
  · simp only [getVoxShadowValue, hmd, hinfo, hp, hk, h]

/-- Failure case of the resolver: pixel index outside the sample range. -/
theorem getVox_index_out (vox : VoxEnv) (lat lon : ℚ) (date : Instant)
    (md : VoxMetadata) (info : VoxTileInfo) (p : ℤ × ℤ) (d : MaskData)
    (hmd : vox.metadata = some md)
    (hinfo : md.tiles.find? (fun t => t.tileId == coordsToTileId lat lon) = some info)
    (hp : coordsToPixel lat lon info = some p)
    (hd : vox.maskFile (coordsToTileId lat lon) date.month (hourToTimeSlot date.hour) = some d)
    (hi : ¬(0 ≤ p.2 * d.width + p.1 ∧ p.2 * d.width + p.1 < (d.shadows.length : ℤ))) :
    getVoxShadowValue vox lat lon date = heuristicSentinel := by
  rcases hk : md.masks.find? (fun m => m.tileId == coordsToTileId lat lon &&
      m.month == date.month && m.slot == hourToTimeSlot date.hour) with _ | mk
  · exact getVox_mask_none vox lat lon date md info p hmd hinfo hp hk
  · simp only [getVoxShadowValue, hmd, hinfo, hp, hk, hd, if_neg hi]

/-- Claim C6: the modelled resolver is a total function (the source's mask
read sits inside `try/catch` and every other step is a checked lookup, so
no exception reaches the caller), every run returns either the heuristic
sentinel `{precision: heuristic, shadowValue: 0, confidence: 0}` or a
precomputed (voxcity) result, and each enumerated failure case — metadata
unavailable, no tile with the computed id, point outside the tile's bounds,
no matching mask, mask file missing/unreadable, pixel index out of range —
returns exactly the sentinel. -/
theorem vox_resolver_sentinel_cases (vox : VoxEnv) (lat lon : ℚ) (date : Instant) :
    (getVoxShadowValue vox lat lon date = heuristicSentinel ∨
      (getVoxShadowValue vox lat lon date).precision = Precision.voxcity) ∧
    (vox.metadata = none → getVoxShadowValue vox lat lon date = heuristicSentinel) ∧
    (∀ md, vox.metadata = some md →
      (md.tiles.find? (fun t => t.tileId == coordsToTileId lat lon) = none →
        getVoxShadowValue vox lat lon date = heuristicSentinel) ∧
      (∀ info, md.tiles.find? (fun t => t.tileId == coordsToTileId lat lon) = some info →
        (coordsToPixel lat lon info = none →
          getVoxShadowValue vox lat lon date = heuristicSentinel) ∧
        (∀ p, coordsToPixel lat lon info = some p →
          (md.masks.find? (fun m => m.tileId == coordsToTileId lat lon &&
              m.month == date.month && m.slot == hourToTimeSlot date.hour) = none →
            getVoxShadowValue vox lat lon date = heuristicSentinel) ∧
          (vox.maskFile (coordsToTileId lat lon) date.month (hourToTimeSlot date.hour) =
              none →
            getVoxShadowValue vox lat lon date = heuristicSentinel) ∧
          (∀ d, vox.maskFile (coordsToTileId lat lon) date.month
              (hourToTimeSlot date.hour) = some d →
            ¬(0 ≤ p.2 * d.width + p.1 ∧
                p.2 * d.width + p.1 < (d.shadows.length : ℤ)) →
            getVoxShadowValue vox lat lon date = heuristicSentinel)))) := by
  refine ⟨?_, fun h => getVox_meta_none vox lat lon date h, fun md hmd => ⟨?_, fun info hinfo => ⟨?_, fun p hp => ⟨?_, ?_, ?_⟩⟩⟩⟩
  · rcases hm : vox.metadata with _ | md
    · exact Or.inl (getVox_meta_none vox lat lon date hm)
    · rcases hf : md.tiles.find? (fun t => t.tileId == coordsToTileId lat lon) with _ | info
      · exact Or.inl (getVox_tile_none vox lat lon date md hm hf)
      · rcases hp : coordsToPixel lat lon info with _ | p
        · exact Or.inl (getVox_pixel_none vox lat lon date md info hm hf hp)
        · rcases hk : md.masks.find? (fun m => m.tileId == coordsToTileId lat lon &&
              m.month == date.month && m.slot == hourToTimeSlot date.hour) with _ | mk
          · exact Or.inl (getVox_mask_none vox lat lon date md info p hm hf hp hk)
          · rcases hd : vox.maskFile (coordsToTileId lat lon) date.month
                (hourToTimeSlot date.hour) with _ | d
            · exact Or.inl (getVox_file_none vox lat lon date md info p hm hf hp hd)
            · by_cases hi : 0 ≤ p.2 * d.width + p.1 ∧
                  p.2 * d.width + p.1 < (d.shadows.length : ℤ)
              · refine Or.inr ?_
                simp only [getVoxShadowValue, hm, hf, hp, hk, hd, if_pos hi]
              · exact Or.inl (getVox_index_out vox lat lon date md info p d hm hf hp hd hi)
  · exact fun h => getVox_tile_none vox lat lon date md hmd h
  · exact fun h => getVox_pixel_none vox lat lon date md info hmd hinfo h
  · exact fun h => getVox_mask_none vox lat lon date md info p hmd hinfo hp h
  · exact fun h => getVox_file_none vox lat lon date md info p hmd hinfo hp h
  · exact fun d hd hi => getVox_index_out vox lat lon date md info p d hmd hinfo hp hd hi

/-- Witness for C6: a world with no metadata resolves to the sentinel. -/
theorem vox_resolver_sentinel_cases_witness :
    getVoxShadowValue trivialVoxEnv 0 0 ⟨1, 12⟩ = heuristicSentinel :=
  (vox_resolver_sentinel_cases trivialVoxEnv 0 0 ⟨1, 12⟩).2.1 rfl

/-! ### Claim C5 — the hybrid scorer's low-sun short-circuit -/

/-- Claim C5: whenever the sun elevation converts to fewer than 5 degrees,
`computeHybridSunScore` returns exactly
`{score: 0, method: heuristic, confidence: 1}`, regardless of shadow data,
precision mode, orientation, cloud cover, or radiation. -/
theorem hybrid_low_sun_shortcircuit (env : Env)
    (sunAzimuth sunElevation cafeOrientation cloudCover directRadiation cafeLat cafeLon : ℚ)
    (hourTime : Instant) (usePrecision : Bool)
    (h : deg env.trig sunElevation < 5) :
    computeHybridSunScore env sunAzimuth sunElevation cafeOrientation cloudCover
      directRadiation cafeLat cafeLon hourTime usePrecision =
      ⟨0, Precision.heuristic, 1⟩ := by
  simp only [computeHybridSunScore]
  rw [if_pos h]

/-- Witness for C5: elevation 0 radians converts to 0 degrees. -/
theorem hybrid_low_sun_shortcircuit_witness :
    computeHybridSunScore trivialEnv 0 0 0 0 0 0 0 ⟨1, 12⟩ true =
      ⟨0, Precision.heuristic, 1⟩ :=
  hybrid_low_sun_shortcircuit trivialEnv 0 0 0 0 0 0 0 ⟨1, 12⟩ true
    (by norm_num [deg, trivialEnv, trivialTrig])

/-! ### Claim C9 — scores and shadow values stay inside the unit interval -/

/-- The `clamp x 0 1` combination always lands in the unit interval. -/
theorem clamp01_bounds (x : ℚ) : 0 ≤ clamp x 0 1 ∧ clamp x 0 1 ≤ 1 := by
  unfold clamp
  exact ⟨le_max_left 0 _, max_le (by norm_num) (min_le_left 1 x)⟩

/-- Claim C9: for any environment whose mask files carry samples in
`[0, 255]` (the format the generator writes) and arbitrary inputs, the
resolver's `shadowValue` and the hybrid scorer's `score` lie in `[0, 1]`. -/
theorem scores_bounded (env : Env)
    (hmask : ∀ id m s d, env.vox.maskFile id m s = some d →
      ∀ v ∈ d.shadows, 0 ≤ v ∧ v ≤ 255)
    (lat lon : ℚ) (date : Instant)
    (sunAzimuth sunElevation cafeOrientation cloudCover directRadiation cafeLat cafeLon : ℚ)
    (hourTime : Instant) (usePrecision : Bool) :
    (0 ≤ (getVoxShadowValue env.vox lat lon date).shadowValue ∧
      (getVoxShadowValue env.vox lat lon date).shadowValue ≤ 1) ∧
    (0 ≤ (computeHybridSunScore env sunAzimuth sunElevation cafeOrientation cloudCover
        directRadiation cafeLat cafeLon hourTime usePrecision).score ∧
      (computeHybridSunScore env sunAzimuth sunElevation cafeOrientation cloudCover
        directRadiation cafeLat cafeLon hourTime usePrecision).score ≤ 1) := by
  constructor
  · rcases hm : env.vox.metadata with _ | md
    · rw [getVox_meta_none env.vox lat lon date hm]
      norm_num [heuristicSentinel]
    · rcases hf : md.tiles.find? (fun t => t.tileId == coordsToTileId lat lon) with _ | info
      · rw [getVox_tile_none env.vox lat lon date md hm hf]
        norm_num [heuristicSentinel]
      · rcases hp : coordsToPixel lat lon info with _ | p
        · rw [getVox_pixel_none env.vox lat lon date md info hm hf hp]
          norm_num [heuristicSentinel]
        · rcases hk : md.masks.find? (fun m => m.tileId == coordsToTileId lat lon &&
              m.month == date.month && m.slot == hourToTimeSlot date.hour) with _ | mk
          · rw [getVox_mask_none env.vox lat lon date md info p hm hf hp hk]
            norm_num [heuristicSentinel]
          · rcases hd : env.vox.maskFile (coordsToTileId lat lon) date.month
                (hourToTimeSlot date.hour) with _ | d
            · rw [getVox_file_none env.vox lat lon date md info p hm hf hp hd]
              norm_num [heuristicSentinel]
            · by_cases hi : 0 ≤ p.2 * d.width + p.1 ∧
                  p.2 * d.width + p.1 < (d.shadows.length : ℤ)
              · have hlt : (p.2 * d.width + p.1).toNat < d.shadows.length := by omega
                have hv := hmask _ _ _ _ hd (d.shadows[(p.2 * d.width + p.1).toNat])
                  (List.getElem_mem hlt)
                simp only [getVoxShadowValue, hm, hf, hp, hk, hd, if_pos hi]
                rw [List.getD_eq_getElem d.shadows 0 hlt]
                constructor
                · exact div_nonneg hv.1 (by norm_num)
                · exact (div_le_one (by norm_num)).mpr (by linarith [hv.2])
              · rw [getVox_index_out env.vox lat lon date md info p d hm hf hp hd hi]
                norm_num [heuristicSentinel]
  · by_cases h5 : deg env.trig sunElevation < 5
    · rw [hybrid_low_sun_shortcircuit env sunAzimuth sunElevation cafeOrientation
        cloudCover directRadiation cafeLat cafeLon hourTime usePrecision h5]
      norm_num
    · simp only [computeHybridSunScore]
      rw [if_neg h5]
      exact clamp01_bounds _

/-- Witness for C9 in the trivial environment (no mask files at all). -/
theorem scores_bounded_witness :
    (0 ≤ (getVoxShadowValue trivialEnv.vox 0 0 ⟨1, 12⟩).shadowValue ∧
      (getVoxShadowValue trivialEnv.vox 0 0 ⟨1, 12⟩).shadowValue ≤ 1) ∧
    (0 ≤ (computeHybridSunScore trivialEnv 0 0 0 0 0 0 0 ⟨1, 12⟩ true).score ∧
      (computeHybridSunScore trivialEnv 0 0 0 0 0 0 0 ⟨1, 12⟩ true).score ≤ 1) :=
  scores_bounded trivialEnv
    (by intro id m s d hd; exact Option.noConfusion hd) 0 0 ⟨1, 12⟩ 0 0 0 0 0 0 0 ⟨1, 12⟩ true

/-! ### Claim C7 — empty weather data is a structured 500 failure -/

/-- Claim C7: when the weather provider yields an empty sequence, the
(foreground) aggregate computation returns the structured error response
with HTTP status 500 and the stable code `"sunscore_failed"`; the model is
a total function, mirroring the source where the thrown
`'No weather data available'` is caught by the surrounding `try/catch`, so
no exception reaches the caller. -/
theorem empty_weather_error (env : Env) (weatherData : List WeatherHour)
    (cafes : List Cafe) (usePrecision : Bool) (cafeLimit : ℕ)
    (h : weatherData = []) :
    computeFreshSunScores env weatherData cafes usePrecision false cafeLimit =
      ApiResult.errorResponse 500 "sunscore_failed" := by
  subst h
  simp [computeFreshSunScores]

/-- Witness for C7 with the trivial environment and no cafés. -/
theorem empty_weather_error_witness :
    computeFreshSunScores trivialEnv [] [] true false 300 =
      ApiResult.errorResponse 500 "sunscore_failed" :=
  empty_weather_error trivialEnv [] [] true 300 rfl

end App
